import Mathlib

/-!
Verification of the client-side script of the Barbearia Lenhador website
(`script.js`): the business-hours open/closed evaluator, the theme
preference store, and the DOM row-marking logic, embedded shallowly.
-/

/-! ## Schedule evaluator (`updateOpenStatus`, lines 261-310)

Weekdays follow the JS `Date.getDay()` convention: 0 = Sunday .. 6 =
Saturday, modelled as `Fin 7`.  Times are minutes since midnight. -/

/-- The hardcoded weekly schedule object (lines 274-282): `none` means
closed all day, `some (open, close)` is an interval in minutes. -/
def schedule (day : Fin 7) : Option (Nat × Nat) :=
  match day.1 with
  | 0 => none
  | 1 => none
  | 2 => some (9 * 60, 19 * 60)
  | 3 => some (9 * 60, 19 * 60)
  | 4 => some (9 * 60, 17 * 60)
  | 5 => some (9 * 60, 19 * 60)
  | _ => some (9 * 60, 17 * 60)

/-- The open/closed decision of `updateOpenStatus` (lines 284-289): the
flag starts false and is set when today's entry is non-null and
`open <= currentTime < close`. -/
def isOpenAt (day : Fin 7) (currentTime : Nat) : Bool :=
  match schedule day with
  | none => false
  | some s => decide (currentTime ≥ s.1) && decide (currentTime < s.2)

/-- The `dayMapping` array (line 301): maps the JS day to the
Monday-first list index of the rendered hours table. -/
def dayMapping : List Nat := [6, 0, 1, 2, 3, 4, 5]

/-- The lookup `dayMapping[day]` (line 302). -/
def todayIndex (day : Fin 7) : Nat := dayMapping.getD day.1 0

/-- State of the `.status-indicator` element: presence of the `open` and
`closed` classes and the text content (lines 292-297). -/
structure StatusIndicator where
  openClass : Bool
  closedClass : Bool
  text : String
  deriving DecidableEq

/-- The DOM state touched by `updateOpenStatus`: the optional status
indicator and, for each `.hours-item` row, whether it carries the
`today` class. -/
structure PageState where
  statusIndicator : Option StatusIndicator
  hoursItems : List Bool
  deriving DecidableEq

/-- The `hoursItems.forEach` loop (lines 304-309): each row at position
`idx` first has `today` removed, then re-added exactly when
`idx = todayIdx`. -/
def markRows (idx todayIdx : Nat) : List Bool → List Bool
  | [] => []
  | _ :: rest => decide (idx = todayIdx) :: markRows (idx + 1) todayIdx rest

/-- The full DOM effect of `updateOpenStatus` at a given weekday and
time: set the indicator classes and text from the open flag (lines
292-297) and re-mark the hours rows (lines 300-309). -/
def updateOpenStatus (day : Fin 7) (currentTime : Nat) (st : PageState) :
    PageState :=
  let isOpen := isOpenAt day currentTime
  { statusIndicator := st.statusIndicator.map fun _ =>
      { openClass := isOpen
        closedClass := !isOpen
        text := if isOpen then "Aberto agora" else "Fechado" }
    hoursItems := markRows 0 (todayIndex day) st.hoursItems }

/-! ## Theme preference store (lines 23-76)

The state models the parts of the environment the theme code touches:
the `localStorage` slot under `THEME_KEY`, the presence of the
`light-mode` class on `document.body`, and the OS `prefers-color-scheme:
light` signal (`none` when `window.matchMedia` is unavailable). -/

structure ThemeState where
  store : Option String
  lightMode : Bool
  os : Option Bool
  deriving DecidableEq

/-- JS truthiness of a `localStorage.getItem` result: `null` and the
empty string are falsy. -/
def truthyStore : Option String → Bool
  | none => false
  | some s => !(decide (s = ""))

/-- The fallback of `getSavedTheme` (lines 34-37): `"light"` when
`window.matchMedia` exists and the prefers-light query matches, else
`"dark"`. -/
def sysFallbackTheme : Option Bool → String
  | some true => "light"
  | _ => "dark"

/-- Translation of `getSavedTheme` (lines 28-38): the stored value if
truthy, else the system fallback. -/
def getSavedTheme (st : ThemeState) : String :=
  match st.store with
  | some s => if s = "" then sysFallbackTheme st.os else s
  | none => sysFallbackTheme st.os

/-- Translation of `applyTheme` (lines 43-50): sets or clears the
`light-mode` class and unconditionally persists the theme to storage. -/
def applyTheme (theme : String) (st : ThemeState) : ThemeState :=
  { st with lightMode := decide (theme = "light"), store := some theme }

/-- Translation of `toggleTheme` (lines 55-59): derives the current
theme from the visual state, flips it, applies the result. -/
def toggleTheme (st : ThemeState) : ThemeState :=
  let currentTheme := if st.lightMode then "light" else "dark"
  let newTheme := if currentTheme = "light" then "dark" else "light"
  applyTheme newTheme st

/-- Events that drive the theme code: page load (the unconditional
`applyTheme(getSavedTheme())` at line 62), a click on the theme toggle
(line 66), and an OS scheme-change notification (lines 71-75). -/
inductive ThemeEvent where
  | pageLoad
  | toggleClick
  | schemeChange (m : Bool)
  deriving DecidableEq

/-- Only the toggle click stores an explicit user preference; the other
events are environment-driven. -/
def isExplicitUserWrite : ThemeEvent → Bool
  | ThemeEvent.toggleClick => true
  | _ => false

/-- One step of the theme state machine.  The scheme-change handler
(lines 71-75) re-applies the OS theme only when
`!localStorage.getItem(THEME_KEY)` holds, i.e. when the stored slot is
falsy. -/
def themeStep : ThemeEvent → ThemeState → ThemeState
  | ThemeEvent.pageLoad, st => applyTheme (getSavedTheme st) st
  | ThemeEvent.toggleClick, st => toggleTheme st
  | ThemeEvent.schemeChange m, st =>
      let st1 : ThemeState := { st with os := some m }
      if truthyStore st1.store then st1
      else applyTheme (if m then "light" else "dark") st1

/-- Run a list of theme events in order. -/
def runEvents : List ThemeEvent → ThemeState → ThemeState
  | [], st => st
  | e :: es, st => runEvents es (themeStep e st)

/-! ## Helper lemmas -/

/-- Marking only looks at list positions, never at the stored values:
re-marking an already-marked list gives the same list. -/
theorem markRows_idem (k : Nat) :
    ∀ (l : List Bool) (i : Nat), markRows i k (markRows i k l) = markRows i k l := by
  intro l
  induction l with
  | nil => intro i; rfl
  | cons b rest ih =>
      intro i
      simp only [markRows]
      exact congrArg _ (ih (i + 1))

/-- Number of `true` entries after marking: one when the target index
falls inside the list, zero otherwise. -/
theorem markRows_count (k : Nat) :
    ∀ (l : List Bool) (i : Nat),
      (markRows i k l).count true = if i ≤ k ∧ k < i + l.length then 1 else 0 := by
  intro l
  induction l with
  | nil =>
      intro i
      simp only [markRows, List.count_nil, List.length_nil]
      split
      · omega
      · rfl
  | cons b rest ih =>
      intro i
      simp only [markRows, List.count_cons, ih (i + 1), List.length_cons,
        beq_iff_eq, decide_eq_true_eq]
      split_ifs <;> omega

/-- Entry read-back after marking: position `j` holds `true` exactly
when `i + j` is the target index. -/
theorem markRows_getD (k : Nat) :
    ∀ (l : List Bool) (i j : Nat), j < l.length →
      (markRows i k l).getD j false = decide (i + j = k) := by
  intro l
  induction l with
  | nil => intro i j h; simp at h
  | cons b rest ih =>
      intro i j h
      cases j with
      | zero => simp [markRows]
      | succ j =>
          have hj : j < rest.length := by
            simpa using Nat.lt_of_succ_lt_succ (by simpa using h)
          simp only [markRows, List.getD_cons_succ]
          rw [ih (i + 1) j hj]
          have e : i + 1 + j = i + (j + 1) := by omega
          rw [e]

/-- Marking preserves the number of rows. -/
theorem markRows_length (k : Nat) :
    ∀ (l : List Bool) (i : Nat), (markRows i k l).length = l.length := by
  intro l
  induction l with
  | nil => intro i; rfl
  | cons b rest ih =>
      intro i
      simp only [markRows, List.length_cons, ih (i + 1)]

/-- The saved-theme read never produces the empty string. -/
theorem getSavedTheme_ne_empty (st : ThemeState) : getSavedTheme st ≠ "" := by
  unfold getSavedTheme sysFallbackTheme
  rcases h : st.store with _ | s
  · rcases st.os with _ | b
    · decide
    · cases b <;> decide
  · by_cases hs : s = ""
    · simp only [hs, if_pos rfl]
      rcases st.os with _ | b
      · decide
      · cases b <;> decide
    · simp [hs]

/-- Every theme event leaves a truthy value in storage: page load and
toggle write unconditionally, and the scheme-change handler either
preserves an already-truthy slot or writes one. -/
theorem themeStep_store_truthy (e : ThemeEvent) (st : ThemeState) :
    truthyStore (themeStep e st).store = true := by
  cases e with
  | pageLoad =>
      simp only [themeStep, applyTheme, truthyStore, Bool.not_eq_true']
      simpa using getSavedTheme_ne_empty st
  | toggleClick =>
      simp only [themeStep, toggleTheme, applyTheme, truthyStore]
      split_ifs <;> decide
  | schemeChange m =>
      simp only [themeStep]
      split
      · next h => simpa using h
      · cases m <;> simp [applyTheme, truthyStore]

/-- A truthy storage slot stays truthy under any sequence of events. -/
theorem runEvents_store_truthy :
    ∀ (es : List ThemeEvent) (st : ThemeState),
      truthyStore st.store = true → truthyStore (runEvents es st).store = true := by
  intro es
  induction es with
  | nil => intro st h; exact h
  | cons e es ih =>
      intro st h
      exact ih _ (themeStep_store_truthy e st)

/-! ## Claim theorems -/

/-- Claim C1: for every weekday and every minute of the day (0-1439),
the evaluator reports open exactly when today's schedule entry is
non-null and `open ≤ now < close`; in particular `now = open` yields
open and `now = close` yields closed. -/
theorem isOpenAt_spec (day : Fin 7) (now : Nat) (_h : now ≤ 1439) :
    (isOpenAt day now = true ↔
      ∃ o c, schedule day = some (o, c) ∧ o ≤ now ∧ now < c) ∧
    (∀ o c, schedule day = some (o, c) →
      isOpenAt day o = true ∧ isOpenAt day c = false) := by
  fin_cases day <;> simp [isOpenAt, schedule] <;>
    (constructor
     · rintro ⟨h1, h2⟩
       exact ⟨_, _, ⟨rfl, rfl⟩, h1, h2⟩
     · rintro ⟨o, c, ⟨rfl, rfl⟩, h1, h2⟩
       exact ⟨h1, h2⟩)

/-- Witness for C1 at Thursday (weekday 4): 09:00 (the open boundary)
is reported open and 17:00 (the close boundary) closed. -/
theorem isOpenAt_spec_witness :
    (540 : Nat) ≤ 1439 ∧ isOpenAt 4 540 = true ∧ isOpenAt 4 1020 = false :=
  ⟨by decide, (isOpenAt_spec 4 540 (by decide)).2 540 1020 rfl⟩

/-- Claim C3: the hardcoded table — Sunday and Monday closed, Tuesday,
Wednesday and Friday 540-1140 minutes, Thursday and Saturday 540-1020 —
and consequently the evaluator never reports open on weekday 0 or 1. -/
theorem schedule_table_spec :
    schedule 0 = none ∧ schedule 1 = none ∧
    schedule 2 = some (540, 1140) ∧ schedule 3 = some (540, 1140) ∧
    schedule 4 = some (540, 1020) ∧ schedule 5 = some (540, 1140) ∧
    schedule 6 = some (540, 1020) ∧
    ∀ t : Nat, isOpenAt 0 t = false ∧ isOpenAt 1 t = false :=
  ⟨rfl, rfl, rfl, rfl, rfl, rfl, rfl, fun _ => ⟨rfl, rfl⟩⟩

/-- Claim C4: the day-mapping table realises `(weekday + 6) % 7`, is a
bijection of {0..6} onto {0..6}, and sends Monday (1) to 0 and Sunday
(0) to 6. -/
theorem todayIndex_spec :
    (∀ d : Fin 7, todayIndex d = (d.1 + 6) % 7) ∧
    (∀ d : Fin 7, todayIndex d < 7) ∧
    Function.Injective (fun d : Fin 7 => todayIndex d) ∧
    (∀ j : Fin 7, ∃ d : Fin 7, todayIndex d = j.1) ∧
    todayIndex 1 = 0 ∧ todayIndex 0 = 6 := by
  refine ⟨by decide, by decide, ?_, by decide, rfl, rfl⟩
  intro a b hab
  fin_cases a <;> fin_cases b <;> simp_all [todayIndex, dayMapping]

/-- Claim C8: after each evaluation over a rendered hours list of seven
rows, exactly one row carries the `today` mark — the one at the current
weekday's display index — and every other row is cleared. -/
theorem updateOpenStatus_marks_today (day : Fin 7) (t : Nat)
    (st : PageState) (h : st.hoursItems.length = 7) :
    ((updateOpenStatus day t st).hoursItems.count true = 1) ∧
    (∀ j, j < 7 →
      ((updateOpenStatus day t st).hoursItems.getD j false = true ↔
        j = todayIndex day)) := by
  have hk : todayIndex day < 7 := by fin_cases day <;> decide
  have hrows : (updateOpenStatus day t st).hoursItems
      = markRows 0 (todayIndex day) st.hoursItems := rfl
  constructor
  · rw [hrows, markRows_count, h, if_pos]
    exact ⟨Nat.zero_le _, by omega⟩
  · intro j hj
    rw [hrows, markRows_getD (todayIndex day) st.hoursItems 0 j (by omega)]
    simp

/-- Witness for C8: a seven-row page on Sunday gets exactly one mark. -/
theorem updateOpenStatus_marks_today_witness :
    (PageState.mk none
      [false, false, false, false, false, false, false]).hoursItems.length = 7 ∧
    (updateOpenStatus 0 0 (PageState.mk none
      [false, false, false, false, false, false, false])).hoursItems.count true = 1 :=
  ⟨rfl, (updateOpenStatus_marks_today 0 0 (PageState.mk none
      [false, false, false, false, false, false, false]) rfl).1⟩

/-- Claim C9: the timer-driven recomputation is idempotent — running it
twice from the same DOM state at a fixed weekday and time equals
running it once. -/
theorem updateOpenStatus_idem (day : Fin 7) (t : Nat) (st : PageState) :
    updateOpenStatus day t (updateOpenStatus day t st)
      = updateOpenStatus day t st := by
  cases st with
  | mk ind rows =>
      simp only [updateOpenStatus, PageState.mk.injEq]
      constructor
      · cases ind <;> simp
      · exact markRows_idem _ _ _

/-- Claim C5: writing the light preference and then reading it back
returns light, for every state of the OS signal. -/
theorem write_light_then_read (st : ThemeState) (os : Option Bool) :
    getSavedTheme { applyTheme "light" st with os := os } = "light" := rfl

/-- Claim C6: toggling twice restores the originally applied
preference, whatever the starting visual state. -/
theorem toggleTheme_twice_restores (st : ThemeState) :
    (toggleTheme (toggleTheme st)).lightMode = st.lightMode := by
  cases st with
  | mk s l o => cases l <;> rfl

/-- Claim C7: the read returns the stored preference when one is
present, else light when the OS prefers-light signal is available and
set, else dark (no stored value and no or negative OS signal). -/
theorem getSavedTheme_spec (st : ThemeState) :
    (∀ s, st.store = some s → s ≠ "" → getSavedTheme st = s) ∧
    (st.store = none → st.os = some true → getSavedTheme st = "light") ∧
    (st.store = none → st.os ≠ some true → getSavedTheme st = "dark") := by
  refine ⟨?_, ?_, ?_⟩
  · intro s hs hne
    simp [getSavedTheme, hs, hne]
  · intro h1 h2
    simp [getSavedTheme, h1, h2, sysFallbackTheme]
  · intro h1 h2
    rcases ho : st.os with _ | b
    · simp [getSavedTheme, h1, ho, sysFallbackTheme]
    · cases b
      · simp [getSavedTheme, h1, ho, sysFallbackTheme]
      · exact absurd ho h2

/-- Witness for C7: each branch at a concrete state. -/
theorem getSavedTheme_spec_witness :
    getSavedTheme (ThemeState.mk (some "light") false none) = "light" ∧
    getSavedTheme (ThemeState.mk none false (some true)) = "light" ∧
    getSavedTheme (ThemeState.mk none false none) = "dark" :=
  ⟨(getSavedTheme_spec (ThemeState.mk (some "light") false none)).1 "light" rfl
      (by decide),
   (getSavedTheme_spec (ThemeState.mk none false (some true))).2.1 rfl rfl,
   (getSavedTheme_spec (ThemeState.mk none false none)).2.2 rfl (by decide)⟩

/-- Claim C10: every `applyTheme` call persists the theme, including
the unconditional page-load initialization, so after initialization the
stored key is always present, even without an explicit user choice. -/
theorem applyTheme_always_persists :
    (∀ (theme : String) (st : ThemeState),
      (applyTheme theme st).store = some theme) ∧
    (∀ st : ThemeState,
      (themeStep ThemeEvent.pageLoad st).store = some (getSavedTheme st)) ∧
    (∀ st : ThemeState,
      ((themeStep ThemeEvent.pageLoad st).store).isSome = true) :=
  ⟨fun _ _ => rfl, fun _ => rfl, fun _ => rfl⟩

/-- Counterexample to claim C2 as stated: from a fresh environment (no
stored value, OS signalling dark), the trace page-load followed by an
OS scheme change to light contains no explicit user write, yet the
applied theme stays dark — the OS change is not reflected, because the
page-load initialization itself already stored a value under the theme
key. -/
theorem schemeChange_not_reflected_without_user_write :
    (List.all [ThemeEvent.pageLoad, ThemeEvent.schemeChange true]
      (fun e => !isExplicitUserWrite e)) = true ∧
    (runEvents [ThemeEvent.pageLoad, ThemeEvent.schemeChange true]
      (ThemeState.mk none false (some false))).lightMode = false :=
  ⟨rfl, rfl⟩

/-- Claim C2 (amended): the scheme-change handler re-applies the OS
theme exactly when the theme key holds no (truthy) value at the time of
the notification; a stored value makes the handler leave the applied
theme unchanged; and after the page-load initialization the key always
holds a value — through any further events — so once the page has
loaded, OS signal changes are never re-applied, even when no explicit
user preference was ever written. -/
theorem schemeChange_applies_iff_store_falsy (st : ThemeState) (m : Bool)
    (es : List ThemeEvent) :
    (truthyStore st.store = false →
      (themeStep (ThemeEvent.schemeChange m) st).lightMode = m) ∧
    (truthyStore st.store = true →
      themeStep (ThemeEvent.schemeChange m) st = { st with os := some m }) ∧
    truthyStore (runEvents es (themeStep ThemeEvent.pageLoad st)).store = true := by
  cases st with
  | mk sStore sLight sOs =>
      refine ⟨?_, ?_, ?_⟩
      · intro h
        cases m <;> simp [themeStep, applyTheme, truthyStore] at h ⊢ <;>
          simp [h]
      · intro h
        simp only [themeStep]
        rw [if_pos]
        exact h
      · exact runEvents_store_truthy es _
          (themeStep_store_truthy ThemeEvent.pageLoad _)

/-- Witness for the amended C2 at a fresh state: the key is unset, and
the handler reflects the OS change to light. -/
theorem schemeChange_applies_iff_store_falsy_witness :
    truthyStore (ThemeState.mk none false (some false)).store = false ∧
    (themeStep (ThemeEvent.schemeChange true)
      (ThemeState.mk none false (some false))).lightMode = true :=
  ⟨rfl, (schemeChange_applies_iff_store_falsy
      (ThemeState.mk none false (some false)) true []).1 rfl⟩
